import Mathlib

/-!
Verification development for the bank-statement-parser repository.

The Python source is shallowly embedded over `List Char` strings and exact
rational arithmetic (`ℚ` in place of IEEE floats).  Each definition mirrors a
specific function of the repository; the theorems at the end of the file
settle the specification claims C1–C10 against these definitions.
-/

set_option maxRecDepth 10000

/-! ## Character and string primitives

Python string/regex semantics modelled over `List Char`:
`\s` / `str.strip` whitespace, ASCII case mapping, substring containment
(`in`), `str.replace`, and the small regex fragments the parsers use.
-/

/-- Whitespace class of Python `\s` / `str.strip` (ASCII range). -/
def isPySpace (c : Char) : Bool :=
  c = ' ' || c = '\t' || c = '\n' || c = '\x0d' || c = '\x0b' || c = '\x0c'

/-- Python `\d`. -/
def isPyDigit (c : Char) : Bool :=
  '0' ≤ c && c ≤ '9'

/-- Python `\w` (ASCII range): letters, digits, underscore. -/
def isPyWord (c : Char) : Bool :=
  ('a' ≤ c && c ≤ 'z') || ('A' ≤ c && c ≤ 'Z') || isPyDigit c || c = '_'

/-- Uppercase ASCII letter, the regex class `[A-Z]`. -/
def isUpperAZ (c : Char) : Bool :=
  'A' ≤ c && c ≤ 'Z'

/-- Python `str.lower` (ASCII case mapping suffices for the statement texts). -/
def lowerL (s : List Char) : List Char :=
  s.map Char.toLower

/-- Python `str.upper` (ASCII case mapping). -/
def upperL (s : List Char) : List Char :=
  s.map Char.toUpper

/-- Python `str.strip()`: drop leading and trailing whitespace. -/
def stripWs (s : List Char) : List Char :=
  ((s.dropWhile isPySpace).reverse.dropWhile isPySpace).reverse

/-- Is `needle` a prefix of `hay`? -/
def isPrefixL : List Char → List Char → Bool
  | [], _ => true
  | _ :: _, [] => false
  | a :: as, b :: bs => a = b && isPrefixL as bs

/-- Case-insensitive prefix test (pattern letters given in lowercase). -/
def isPrefixCI : List Char → List Char → Bool
  | [], _ => true
  | _ :: _, [] => false
  | a :: as, b :: bs => a = b.toLower && isPrefixCI as bs

/-- Python substring containment `needle in hay`. -/
def containsSub (needle : List Char) : List Char → Bool
  | [] => isPrefixL needle []
  | c :: rest => isPrefixL needle (c :: rest) || containsSub needle rest

/-- Containment of any needle of a list, Python `any(kw in s for kw in kws)`. -/
def containsAny (hay : List Char) (needles : List (List Char)) : Bool :=
  needles.any (fun n => containsSub n hay)

/-- Python `s.replace(old, new, 1)` for a non-empty pattern: replace the
leftmost occurrence only. -/
def replaceFirstL (old new : List Char) : List Char → List Char
  | [] => []
  | c :: rest =>
    if isPrefixL old (c :: rest) ∧ old ≠ [] then
      new ++ (c :: rest).drop old.length
    else
      c :: replaceFirstL old new rest

/-- Fuel-driven worker for `replaceAllL`; each replacement consumes at least
one character, so fuel `s.length` is enough. -/
def replaceAllGo (old new : List Char) : ℕ → List Char → List Char
  | 0, cs => cs
  | _ + 1, [] => []
  | fuel + 1, c :: rest =>
    if isPrefixL old (c :: rest) ∧ old ≠ [] then
      new ++ replaceAllGo old new fuel ((c :: rest).drop old.length)
    else
      c :: replaceAllGo old new fuel rest

/-- Python `s.replace(old, new)` for a non-empty pattern: replace every
non-overlapping occurrence, left to right. -/
def replaceAllL (old new s : List Char) : List Char :=
  replaceAllGo old new s.length s

/-- Remove every occurrence of one character (used for `, `₹` removal). -/
def removeChar (ch : Char) (s : List Char) : List Char :=
  s.filter (fun c => c ≠ ch)

/-- Regex `re.sub(r'\s+', ' ', s)`: collapse every whitespace run to a single
space.  The boolean tracks whether the scanner is inside a run. -/
def collapseWsGo : Bool → List Char → List Char
  | _, [] => []
  | inRun, c :: rest =>
    if isPySpace c then
      if inRun then collapseWsGo true rest
      else ' ' :: collapseWsGo true rest
    else
      c :: collapseWsGo false rest

/-- Whitespace collapse, `re.sub(r'\s+', ' ', s)`. -/
def collapseWs (s : List Char) : List Char :=
  collapseWsGo false s

/-- Python `text.split('\n')`. -/
def splitLines (s : List Char) : List (List Char) :=
  s.splitOn '\n'

/-! ## Numbers

`float(...)` and `round(x, 2)` are modelled over `ℚ`.  The modelled `float`
grammar is sign, integer digits, optional fraction digits, with at least one
digit and optional surrounding whitespace — the shapes the statement texts
produce (exponents, `inf`/`nan` and underscores are out of model). -/

/-- Numeric value of a digit run. -/
def digitsToNat (ds : List Char) : ℕ :=
  ds.foldl (fun acc c => acc * 10 + (c.toNat - '0'.toNat)) 0

/-- Parse `digits [. digits]` (no sign) as an exact rational, built as the
single fraction `(intPart · 10^k + fracPart) / 10^k`. -/
def parseUnsigned (cs : List Char) : Option ℚ :=
  let intPart := cs.takeWhile isPyDigit
  let rest := cs.dropWhile isPyDigit
  match rest with
  | [] =>
    if intPart = [] then none
    else some (mkRat (digitsToNat intPart) 1)
  | '.' :: fracRest =>
    let fracPart := fracRest.takeWhile isPyDigit
    if fracRest.dropWhile isPyDigit ≠ [] then none
    else if intPart = [] ∧ fracPart = [] then none
    else some (mkRat
      (digitsToNat intPart * 10 ^ fracPart.length + digitsToNat fracPart)
      (10 ^ fracPart.length))
  | _ => none

/-- Model of Python `float(s)`: optional surrounding whitespace, optional
sign, then a decimal literal; `none` means `float` raises `ValueError`. -/
def pyFloat (s : List Char) : Option ℚ :=
  match stripWs s with
  | '-' :: rest => (parseUnsigned rest).map (fun q => -q)
  | '+' :: rest => parseUnsigned rest
  | rest => parseUnsigned rest

/-- Round half to even of the fraction `n / d` (`d` positive), the idealized
semantics of Python `round` to integer, expressed on an explicit
numerator/denominator pair: floor quotient, then compare twice the remainder
against the denominator, taking the even neighbour on an exact half. -/
def roundHalfEvenPair (n d : ℤ) : ℤ :=
  let f := Int.fdiv n d
  let rem := n - f * d
  if 2 * rem < d then f
  else if d < 2 * rem then f + 1
  else if f % 2 = 0 then f else f + 1

/-- Python `round(q, 2)` in the exact-rational model: round half to even of
`q * 100` (the pair `q.num * 100 / q.den`), divided by 100. -/
def pyRound2 (q : ℚ) : ℚ :=
  mkRat (roundHalfEvenPair (q.num * 100) q.den) 100

/-! ## Dynamic values and transaction records

Parser transactions are Python dicts whose amount fields hold either a string
(possibly empty) or a float.  `Val` captures that dynamic typing; `Val.none`
models an absent key / `None`. -/

/-- A Python value stored in a transaction field: `None`, a string, or a
float. -/
inductive Val where
  | none : Val
  | str : List Char → Val
  | num : ℚ → Val
deriving DecidableEq

/-- The transaction record dict built by every parser (`serial` is attached
later by `detect_and_parse`; parsers leave it at 0). -/
structure TransactionRecord where
  serial : ℕ := 0
  date : List Char := []
  description : List Char := []
  debit : Val := Val.str []
  credit : Val := Val.str []
  balance : Val := Val.str []
  ledger : List Char := []
deriving DecidableEq

/-! ## Format detector (`parsers/detector.py`)

`detect_bank_type(text, first_page_text)` is a strict if-chain: Tier 1
credit-card phrase tests, Tier 2 IFSC routing-code lookup (with an HDFC
credit-card override), Tier 3 keyword fallback.  `first_page_text or text`
is Python's falsy-or: the empty string (or `None`) falls back to `text`. -/

/-- Python `first_page_text or text` (empty string and `None` are falsy). -/
def pyOrText (first_page_text text : List Char) : List Char :=
  if first_page_text = [] then text else first_page_text

/-- Tier 1 of `detect_bank_type`: the credit-card phrase if-chain, in source
order; `some label` when one of the conditions fires. -/
def tier1CreditLabel (text_lower fp_lower : List Char) : Option (List Char) :=
  if containsSub "one credit card".data text_lower then
    some ("one_credit").data
  else if containsSub "indusind".data fp_lower &&
      (containsSub "credit card".data fp_lower ||
        containsSub "indusind bank".data fp_lower) &&
      (containsSub "previous balance".data fp_lower ||
        containsSub "card statement".data fp_lower ||
        containsSub "purchases".data fp_lower) then
    some ("indusind_credit").data
  else if containsSub "credit card statement".data fp_lower &&
      containsSub "yes bank".data fp_lower then
    some ("yes_credit").data
  else if containsSub "yes bank".data fp_lower &&
      containsSub "card number".data fp_lower &&
      containsSub "credit limit".data fp_lower then
    some ("yes_credit").data
  else if containsSub "sbi card".data fp_lower &&
      (containsSub "credit limit".data fp_lower ||
        containsSub "stmt no".data fp_lower) then
    some ("sbi_credit").data
  else if (containsSub "xxxx xxxx xxxx".data fp_lower ||
        containsSub "stmt no".data fp_lower) &&
      containsSub "sbi".data fp_lower &&
      containsSub "credit limit".data fp_lower then
    some ("sbi_credit").data
  else if containsSub "neucoins".data fp_lower ||
      containsSub "tata neu".data fp_lower then
    some ("hdfc_credit").data
  else if containsSub "hdfc bank credit card".data fp_lower ||
      (containsSub "hdfc".data fp_lower &&
        containsSub "credit card".data fp_lower &&
        (containsSub "card no".data fp_lower ||
          containsSub "statement date".data fp_lower)) then
    some ("hdfc_credit").data
  else if containsSub "rbl bank".data fp_lower &&
      (containsSub "credit limit".data fp_lower ||
        containsSub "min. amt".data fp_lower ||
        containsSub "the month gone by".data fp_lower ||
        containsSub "account summary".data fp_lower) then
    some ("rbl_credit").data
  else
    none

/-- Attempt of the IFSC regex `\b([A-Z]{4}0[A-Z0-9]{6})\b` at the current
position (the word boundary before the position is checked by the caller). -/
def ifscMatchAt : List Char → Option (List Char)
  | a :: b :: c :: d :: e :: f :: g :: h :: i :: j :: k :: rest =>
    if isUpperAZ a && isUpperAZ b && isUpperAZ c && isUpperAZ d && e = '0' &&
        (isUpperAZ f || isPyDigit f) && (isUpperAZ g || isPyDigit g) &&
        (isUpperAZ h || isPyDigit h) && (isUpperAZ i || isPyDigit i) &&
        (isUpperAZ j || isPyDigit j) && (isUpperAZ k || isPyDigit k) &&
        (match rest with | [] => true | x :: _ => !isPyWord x) then
      some [a, b, c, d, e, f, g, h, i, j, k]
    else
      none
  | _ => none

/-- Left-to-right scan for the first IFSC match; the boolean carries whether
the previous character was a word character (for the leading `\b`). -/
def findIfscGo : Bool → List Char → Option (List Char)
  | _, [] => none
  | prevWord, c :: rest =>
    if !prevWord then
      match ifscMatchAt (c :: rest) with
      | some m => some m
      | none => findIfscGo (isPyWord c) rest
    else
      findIfscGo (isPyWord c) rest

/-- First IFSC-shaped token of the text, `re.findall(...)[0]` when present. -/
def findIfscFirst (s : List Char) : Option (List Char) :=
  findIfscGo false s

/-- The `ifsc_bank_map` dict: 4-letter IFSC prefix to format label. -/
def ifscBankFor (pfx : List Char) : Option (List Char) :=
  if pfx = "SBIN".data then some ("sbi_bank").data
  else if pfx = "YESB".data then some ("yes_bank").data
  else if pfx = "SCBL".data then some ("standard_bank").data
  else if pfx = "HDFC".data then some ("hdfc_bank").data
  else if pfx = "RATN".data then some ("rbl_bank").data
  else if pfx = "INDB".data then some ("indusind_credit").data
  else none

/-- Tier 3 of `detect_bank_type`: keyword fallback chain over the first-page
text, ending in the generic fallbacks and `unknown`. -/
def tier3KeywordLabel (fp_lower : List Char) : List Char :=
  if (containsSub "state bank".data fp_lower ||
        containsSub "sbin".data fp_lower) &&
      (containsSub "account statement".data fp_lower ||
        containsSub "txn date".data fp_lower ||
        containsSub "regular sb".data fp_lower) then
    ("sbi_bank").data
  else if containsSub "hdfc".data fp_lower &&
      (containsSub "account statement".data fp_lower ||
        containsSub "savings".data fp_lower ||
        containsSub "current account".data fp_lower) then
    ("hdfc_bank").data
  else if (containsSub "yes bank".data fp_lower ||
        containsSub "yesb".data fp_lower) &&
      (containsSub "saving".data fp_lower ||
        containsSub "transaction details for your account".data fp_lower ||
        containsSub "statement of account".data fp_lower) then
    ("yes_bank").data
  else if containsSub "rbl bank".data fp_lower &&
      containsSub "account".data fp_lower then
    ("rbl_bank").data
  else if containsSub "standard chartered".data fp_lower then
    ("standard_bank").data
  else if containsSub "sbi".data fp_lower &&
      containsSub "credit limit".data fp_lower then
    ("sbi_credit").data
  else if containsSub "hdfc".data fp_lower then
    ("hdfc_bank").data
  else if containsSub "yes bank".data fp_lower then
    ("yes_bank").data
  else
    ("unknown").data

/-- The detector `detect_bank_type(text, first_page_text='')`.  The IFSC
prefix is `ifsc_matches[0][:4].upper()`; the matched characters are already
uppercase, so the embedding takes the first four characters directly. -/
def detect_bank_type (text first_page_text : List Char) : List Char :=
  let text_lower := lowerL text
  let fp_lower := lowerL (pyOrText first_page_text text)
  match tier1CreditLabel text_lower fp_lower with
  | some l => l
  | none =>
    match findIfscFirst (pyOrText first_page_text text) with
    | some code =>
      match ifscBankFor (code.take 4) with
      | some bank =>
        if bank = "hdfc_bank".data &&
            containsSub "credit card".data fp_lower &&
            containsSub "credit limit".data fp_lower then
          ("hdfc_credit").data
        else bank
      | none => tier3KeywordLabel fp_lower
    | none => tier3KeywordLabel fp_lower

/-! ## Balance backfill and dispatcher (`parsers/detector.py`) -/

/-- The test `txn.get('balance') not in (None, '', '0', 0)` on one value:
a balance counts as present unless it is `None`, the empty string, the
one-character string `0`, or the number `0`. -/
def hasBalanceVal (v : Val) : Bool :=
  match v with
  | Val.none => false
  | Val.str s => !(s = [] || s = ['0'])
  | Val.num q => !(q = 0)

/-- The helper `_to_float`: `None`, `''` and `0` give `0.0`; otherwise commas,
the rupee sign and `Rs.` are removed, the result stripped and parsed, with
parse failure giving `0.0`.  For an already numeric value `float(str(val))`
round-trips, so the number itself is returned. -/
def to_float (val : Val) : ℚ :=
  match val with
  | Val.none => 0
  | Val.num q => q
  | Val.str s =>
    if s = [] then 0
    else
      match pyFloat (stripWs (replaceAllL ("Rs.").data []
          (removeChar '₹' (removeChar ',' s)))) with
      | some q => q
      | none => 0

/-- The accumulation loop of `_fill_running_balance`: running balance starts
at the given value, each record gets `round(running - debit + credit, 2)`. -/
def fillLoop (running : ℚ) : List TransactionRecord → List TransactionRecord
  | [] => []
  | txn :: rest =>
    let debit := to_float txn.debit
    let credit := to_float txn.credit
    let r := running - debit + credit
    { txn with balance := Val.num (pyRound2 r) } :: fillLoop r rest

/-- `_fill_running_balance(transactions)`: a no-op when any record's balance
passes `hasBalanceVal`, otherwise the accumulation from zero. -/
def fill_running_balance (transactions : List TransactionRecord) :
    List TransactionRecord :=
  if transactions.any (fun txn => hasBalanceVal txn.balance) then transactions
  else fillLoop 0 transactions

/-- Labels of the `parser_map` dict in `detect_and_parse`. -/
def parserMapLabels : List (List Char) :=
  [("sbi_bank").data, ("sbi_credit").data, ("hdfc_bank").data,
    ("hdfc_credit").data, ("yes_bank").data, ("yes_credit").data,
    ("rbl_bank").data, ("rbl_credit").data, ("indusind_credit").data,
    ("one_credit").data, ("standard_bank").data]

/-- Display names of `parser_map` (first component of each dict value). -/
def bankDisplayName (l : List Char) : List Char :=
  if l = "sbi_bank".data then ("SBI Bank").data
  else if l = "sbi_credit".data then ("SBI Credit Card").data
  else if l = "hdfc_bank".data then ("HDFC Bank").data
  else if l = "hdfc_credit".data then ("HDFC Credit Card").data
  else if l = "yes_bank".data then ("Yes Bank").data
  else if l = "yes_credit".data then ("Yes Credit Card").data
  else if l = "rbl_bank".data then ("RBL Bank").data
  else if l = "rbl_credit".data then ("RBL Credit Card").data
  else if l = "indusind_credit".data then ("IndusInd Credit Card").data
  else if l = "one_credit".data then ("One Credit Card").data
  else if l = "standard_bank".data then ("Standard Chartered Bank").data
  else []

/-- The serial-number loop of `detect_and_parse`. -/
def assignSerials (ts : List TransactionRecord) : List TransactionRecord :=
  ts.enum.map (fun p => { p.2 with serial := p.1 + 1 })

/-- Result dict of `detect_and_parse` on success. -/
structure ParseOutcome where
  bank_type : List Char
  transactions : List TransactionRecord
  account_info : List Char := []
deriving DecidableEq

/-- Text of the first three pages joined with newlines, as accumulated by
`full_text += page_text + '\n'`. -/
def fullTextOf (pages : List (List Char)) : List Char :=
  (pages.take 3).foldl (fun acc p => acc ++ p ++ ['\n']) []

/-- The first sampled page's text (`''` when there are no pages). -/
def firstPageOf (pages : List (List Char)) : List Char :=
  (pages.take 3).headD []

/-- Shallow embedding of `detect_and_parse`.  The PDF-reading collaborator is
abstracted into its observable inputs: `pages` is the per-page extracted text
and `parseResult label` the record list returned by `parser_map[label]`'s
parser function on this document.  `None` is the no-match signal. -/
def detect_and_parse (pages : List (List Char))
    (parseResult : List Char → List TransactionRecord) : Option ParseOutcome :=
  let full_text := fullTextOf pages
  let first_page_text := firstPageOf pages
  if stripWs full_text = [] then none
  else
    let bank_type := detect_bank_type full_text first_page_text
    if bank_type ∈ parserMapLabels then
      let transactions := parseResult bank_type
      if transactions = [] then none
      else
        some { bank_type := bankDisplayName bank_type,
               transactions := fill_running_balance (assignSerials transactions) }
    else none

/-! ## Column classification by right edge

`parsers/sbi_bank.py` `_classify_col` picks, via Python `min` over the list
`[('debit', …), ('credit', …), ('balance', …)]`, the column whose expected
right-edge `x1` is nearest to the token's right edge, accepting it only
within the 15-pixel tolerance; Python's `min` keeps the first element on
ties.  `parsers/hdfc_bank.py` (lines 87–96 of `parse_hdfc_bank`) tests the
same distances against fixed constants with strict 20-pixel bounds, in the
order balance (627), deposit (548), withdrawal (470). -/

/-- Semantic amount column of a word-position extractor. -/
inductive AmtCol where
  | debit : AmtCol
  | credit : AmtCol
  | balance : AmtCol
deriving DecidableEq

/-- One step of Python `min(..., key=lambda d: d[1])`: the accumulator is
replaced only on strictly smaller keys, so ties keep the earlier entry. -/
def pyMinBySnd : AmtCol × ℚ → List (AmtCol × ℚ) → AmtCol × ℚ
  | best, [] => best
  | best, x :: rest => pyMinBySnd (if x.2 < best.2 then x else best) rest

/-- `_classify_col(x1, debit_x1, credit_x1, balance_x1)` of
`parsers/sbi_bank.py`: nearest column by right-edge distance, `None` outside
the 15-pixel tolerance. -/
def classify_col (x1 debit_x1 credit_x1 balance_x1 : ℚ) : Option AmtCol :=
  let diffs : List (AmtCol × ℚ) :=
    [(AmtCol.debit, |x1 - debit_x1|),
     (AmtCol.credit, |x1 - credit_x1|),
     (AmtCol.balance, |x1 - balance_x1|)]
  match diffs with
  | [] => none
  | d :: rest =>
    let best := pyMinBySnd d rest
    if best.2 ≤ 15 then some best.1 else none

/-- Fixed right-edge coordinates of `parsers/hdfc_bank.py`
(`WITHDRAWAL_X1 = 470`, `DEPOSIT_X1 = 548`, `BALANCE_X1 = 627`); withdrawal
is the record's debit and deposit its credit. -/
def hdfcColX1 : AmtCol → ℚ
  | AmtCol.debit => 470
  | AmtCol.credit => 548
  | AmtCol.balance => 627

/-- The inline amount classification of `parse_hdfc_bank` (lines 87–96):
balance, deposit, withdrawal tested in that order, each with
`abs(x1 - COL_X1) < COL_TOL` and `COL_TOL = 20`. -/
def hdfcClassifyAmount (x1 : ℚ) : Option AmtCol :=
  if |x1 - 627| < 20 then some AmtCol.balance
  else if |x1 - 548| < 20 then some AmtCol.credit
  else if |x1 - 470| < 20 then some AmtCol.debit
  else none

/-! ## SBI credit-card finalizer (`parsers/sbi_credit.py`) -/

/-- The mutable candidate dict of `_process_sbi_credit_text`. -/
structure SbiCreditTxn where
  date : List Char := []
  description : List Char := []
  amount : List Char := []
  dr_cr : List Char := []
deriving DecidableEq

/-- Attempt of the case-insensitive regex `\s*-\s*Ref\s*No\s*:\s*\S+` at the
current position; on success returns the remainder after the match. -/
def refNoMatchAt (cs : List Char) : Option (List Char) :=
  match cs.dropWhile isPySpace with
  | '-' :: b =>
    let c := b.dropWhile isPySpace
    if isPrefixCI "ref".data c then
      let e := (c.drop 3).dropWhile isPySpace
      if isPrefixCI "no".data e then
        match (e.drop 2).dropWhile isPySpace with
        | ':' :: h =>
          match h.dropWhile isPySpace with
          | [] => none
          | x :: rest => some ((x :: rest).dropWhile (fun ch => !isPySpace ch))
        | _ => none
      else none
    else none
  | _ => none

/-- Fuel-driven scan of `re.sub(r'\s*-\s*Ref\s*No\s*:\s*\S+', '', s)`; every
match consumes at least one character. -/
def refNoSubGo : ℕ → List Char → List Char
  | 0, cs => cs
  | _ + 1, [] => []
  | fuel + 1, c :: rest =>
    match refNoMatchAt (c :: rest) with
    | some rem => refNoSubGo fuel rem
    | none => c :: refNoSubGo fuel rest

/-- Removal of reference-number suffixes,
`re.sub(r'\s*-\s*Ref\s*No\s*:\s*\S+', '', s, flags=re.IGNORECASE)`. -/
def refNoSub (s : List Char) : List Char :=
  refNoSubGo s.length s

/-- Description cleanup of `_finalize_sbi_credit_txn`: whitespace collapse,
strip, then reference-number removal. -/
def cleanSbiCreditDesc (d : List Char) : List Char :=
  refNoSub (stripWs (collapseWs d))

/-- `_determine_ledger` of `parsers/sbi_credit.py`. -/
def sbiCreditLedger (description : List Char) : List Char :=
  let desc := upperL description
  if containsAny desc [("ZOMATO").data, ("SWIGGY").data, ("FOOD").data,
      ("RESTAURANT").data, ("CAFE").data, ("PIZZA").data, ("BURGER").data,
      ("DOMINOS").data, ("STARBUCKS").data, ("TACO").data,
      ("BARBEQUE").data] then ("Food & Dining").data
  else if containsAny desc [("AMAZON").data, ("FLIPKART").data,
      ("MYNTRA").data, ("AJIO").data, ("MEESHO").data] then
    ("Shopping Online").data
  else if containsAny desc [("NETFLIX").data, ("SPOTIFY").data,
      ("HOTSTAR").data, ("PRIME VIDEO").data, ("YOUTUBE").data] then
    ("Entertainment").data
  else if containsAny desc [("PETROL").data, ("DIESEL").data, ("FUEL").data,
      ("PETROLEUM").data, ("HP ").data, ("BPCL").data, ("IOCL").data,
      ("AUTO FILLS").data, ("OIL").data, ("BHARAT PETRO").data] then
    ("Fuel").data
  else if containsAny desc [("AIRTEL").data, ("JIO").data, ("VODAFONE").data,
      ("RECHARGE").data, ("ELECTRICITY").data, ("WATER").data, ("GAS").data,
      ("BROADBAND").data, ("BILL PAY").data] then ("Utilities").data
  else if containsAny desc [("HOSPITAL").data, ("MEDICAL").data,
      ("PHARMACY").data, ("CHEMIST").data, ("DOCTOR").data, ("HEALTH").data,
      ("APOLLO").data, ("FORTIS").data, ("MEDIC").data] then ("Medical").data
  else if containsAny desc [("UBER").data, ("OLA").data, ("RAPIDO").data,
      ("IRCTC").data, ("MAKEMYTRIP").data, ("YATRA").data,
      ("AIRLINES").data, ("FLIGHT").data, ("TRAIN").data, ("CAB").data,
      ("TRAVEL").data] then ("Travel").data
  else if containsAny desc [("GROCERY").data, ("BIGBASKET").data,
      ("BLINKIT").data, ("ZEPTO").data, ("DMART").data,
      ("SUPERMARKET").data, ("GROFERS").data, ("NATURE").data,
      ("BASKET").data] then ("Groceries").data
  else if containsAny desc [("EMI").data, ("LOAN").data] then
    ("EMI/Loan").data
  else if containsAny desc [("INSURANCE").data, ("LIC").data,
      ("POLICY").data] then ("Insurance").data
  else if containsAny desc [("PAYMENT RECEIVED").data, ("PAYMENT").data,
      ("REVERSAL").data, ("REFUND").data] then ("Payment/Refund").data
  else if containsAny desc [("FEE").data, ("CHARGE").data, ("ANNUAL").data,
      ("SURCHARGE").data, ("GST").data, ("TAX").data,
      ("SERVICE TAX").data] then ("Fees & Charges").data
  else if containsAny desc [("APPAREL").data, ("CLOTHING").data,
      ("FASHION").data, ("MARKS AND SPENCER").data, ("H AND M").data,
      ("ZARA").data, ("BATA").data, ("JOCKEY").data, ("LEVI").data] then
    ("Clothing").data
  else ("General").data

/-- `_finalize_sbi_credit_txn(txn, transactions)`: drop candidates without
amount or date, on unparseable amounts, and on zero amounts; CR/C suffixes
and the PAYMENT RECEIVED / REVERSAL / REFUND keywords force the credit side. -/
def finalize_sbi_credit_txn (txn : SbiCreditTxn)
    (transactions : List TransactionRecord) : List TransactionRecord :=
  if txn.amount = [] ∨ txn.date = [] then transactions
  else
    match pyFloat (removeChar ',' txn.amount) with
    | none => transactions
    | some amount_float =>
      let desc := cleanSbiCreditDesc txn.description
      let isCr := txn.dr_cr = "CR".data ∨ txn.dr_cr = "C".data ∨
        containsSub "PAYMENT RECEIVED".data (upperL desc) ∨
        containsSub "REVERSAL".data (upperL desc) ∨
        containsSub "REFUND".data (upperL desc)
      let debit : Val := if isCr then Val.str [] else Val.num amount_float
      let credit : Val := if isCr then Val.num amount_float else Val.str []
      if amount_float = 0 then transactions
      else
        transactions ++ [{ date := txn.date, description := desc,
                           debit := debit, credit := credit,
                           balance := Val.str [],
                           ledger := sbiCreditLedger desc }]

/-! ## HDFC credit-card finalizer (`parsers/hdfc_credit.py`) -/

/-- The mutable candidate dict of `_process_hdfc_credit_text`; `amount` is a
float there (0 when no amount was found). -/
structure HdfcCreditTxn where
  date : List Char := []
  description : List Char := []
  amount : ℚ := 0
  is_credit : Bool := false
deriving DecidableEq

/-- Description cleanup of `_finalize_hdfc_credit_txn`: whitespace collapse
and strip, then `re.sub(r'\s*l\s*$', '', …)` (trailing font artifact) and
`re.sub(r'^\+\s*', '', …)` (leading plus). -/
def cleanHdfcCreditDesc (d : List Char) : List Char :=
  let d1 := stripWs (collapseWs d)
  let r := d1.reverse
  let d2 := match r.dropWhile isPySpace with
    | 'l' :: t2 => (t2.dropWhile isPySpace).reverse
    | _ => d1
  match d2 with
  | '+' :: t => t.dropWhile isPySpace
  | _ => d2

/-- `_determine_ledger` of `parsers/hdfc_credit.py`. -/
def hdfcCreditLedger (description : List Char) : List Char :=
  let desc := upperL description
  if containsAny desc [("ZOMATO").data, ("SWIGGY").data, ("FOOD").data,
      ("RESTAURANT").data, ("STARBUCKS").data, ("TACO").data,
      ("BARBEQUE").data, ("MCDONALDS").data, ("KFC").data, ("CAFE").data,
      ("DOMINOS").data, ("PIZZA").data] then ("Food & Dining").data
  else if containsAny desc [("PETROL").data, ("DIESEL").data, ("FUEL").data,
      ("AUTO FILLS").data, ("HP ").data, ("BPCL").data] then ("Fuel").data
  else if containsAny desc [("AMAZON").data, ("FLIPKART").data,
      ("MYNTRA").data, ("AJIO").data] then ("Shopping Online").data
  else if containsAny desc [("NETFLIX").data, ("SPOTIFY").data,
      ("HOTSTAR").data] then ("Entertainment").data
  else if containsAny desc [("BLINKIT").data, ("ZEPTO").data,
      ("BIGBASKET").data, ("GROCERY").data, ("DMART").data] then
    ("Groceries").data
  else if containsAny desc [("H AND M").data, ("ZARA").data, ("BATA").data,
      ("JOCKEY").data, ("MARKS AND SPENCER").data, ("CLOTHING").data,
      ("APPAREL").data, ("INDIVINITY").data, ("BANGLES").data] then
    ("Clothing & Accessories").data
  else if containsAny desc [("FITNESS").data, ("GYM").data] then
    ("Health & Fitness").data
  else if containsAny desc [("SURCHARGE WAIVER").data, ("REVERSAL").data,
      ("REFUND").data] then ("Adjustment").data
  else ("General").data

/-- `_finalize_hdfc_credit_txn(txn, transactions)`: zero amounts and empty
cleaned descriptions are dropped; SURCHARGE WAIVER / REVERSAL / REFUND, or
PAYMENT together with RECEIVED, force the credit side over the previously
inferred `is_credit` flag. -/
def finalize_hdfc_credit_txn (txn : HdfcCreditTxn)
    (transactions : List TransactionRecord) : List TransactionRecord :=
  if txn.amount = 0 then transactions
  else
    let desc := cleanHdfcCreditDesc txn.description
    if desc = [] then transactions
    else
      let isCredit1 :=
        if containsSub "SURCHARGE WAIVER".data (upperL desc) ∨
            containsSub "REVERSAL".data (upperL desc) ∨
            containsSub "REFUND".data (upperL desc) then true
        else txn.is_credit
      let isCredit :=
        if containsSub "PAYMENT".data (upperL desc) ∧
            containsSub "RECEIVED".data (upperL desc) then true
        else isCredit1
      let debit : Val := if isCredit then Val.str [] else Val.num txn.amount
      let credit : Val := if isCredit then Val.num txn.amount else Val.str []
      transactions ++ [{ date := txn.date, description := desc,
                         debit := debit, credit := credit,
                         balance := Val.str [],
                         ledger := hdfcCreditLedger desc }]

/-! ## Yes Bank text-mode extractor (`parsers/yes_bank.py`)

`_process_yes_text` walks the page lines with one open candidate: a line
matching the date pattern `^(\d{1,2}\s+\w{3}\s+\d{4}|\d{1,2}/\d{1,2}/\d{4})`
opens a new transaction, amounts are the matches of `([\d,]+\.\d{2})`, and
with three or more amounts the last three land in withdrawal, deposit and
balance (zero withdrawal/deposit becoming the empty string). -/

/-- Attempt of `\d{1,2}\s+\w{3}\s+\d{4}` at the start: day digits (a run of
three or more digits fails both the two- and one-digit readings, since a
digit can continue neither `\s+` nor `/`), spaces, three word characters,
spaces, four digits.  Returns the matched text and the remainder. -/
def matchDayMonYear (cs : List Char) : Option (List Char × List Char) :=
  let ds := cs.takeWhile isPyDigit
  if ds.length = 1 ∨ ds.length = 2 then
    let r1 := cs.drop ds.length
    let sp1 := r1.takeWhile isPySpace
    if sp1 ≠ [] then
      match r1.drop sp1.length with
      | a :: b :: c :: r3 =>
        if isPyWord a && isPyWord b && isPyWord c then
          let sp2 := r3.takeWhile isPySpace
          if sp2 ≠ [] then
            match r3.drop sp2.length with
            | d1 :: d2 :: d3 :: d4 :: r5 =>
              if isPyDigit d1 && isPyDigit d2 && isPyDigit d3 &&
                  isPyDigit d4 then
                some (ds ++ sp1 ++ a :: b :: c :: sp2 ++ [d1, d2, d3, d4], r5)
              else none
            | _ => none
          else none
        else none
      | _ => none
    else none
  else none

/-- Attempt of `\d{1,2}/\d{1,2}/\d{4}` at the start. -/
def matchSlashDate (cs : List Char) : Option (List Char × List Char) :=
  let ds1 := cs.takeWhile isPyDigit
  if ds1.length = 1 ∨ ds1.length = 2 then
    match cs.drop ds1.length with
    | '/' :: r1 =>
      let ds2 := r1.takeWhile isPyDigit
      if ds2.length = 1 ∨ ds2.length = 2 then
        match r1.drop ds2.length with
        | '/' :: r2 =>
          match r2 with
          | d1 :: d2 :: d3 :: d4 :: r3 =>
            if isPyDigit d1 && isPyDigit d2 && isPyDigit d3 &&
                isPyDigit d4 then
              some (ds1 ++ '/' :: ds2 ++ '/' :: [d1, d2, d3, d4], r3)
            else none
          | _ => none
        | _ => none
      else none
    | _ => none
  else none

/-- The anchored date alternation of `yes_bank.py` (also used by
`standard_bank.py`'s text mode for its first alternative): left branch
first, as the regex engine does. -/
def yesDateMatch (cs : List Char) : Option (List Char × List Char) :=
  match matchDayMonYear cs with
  | some r => some r
  | none => matchSlashDate cs

/-- Attempt of `[\d,]+\.\d{2}` at the current position: the greedy digit/comma
run (shortening it can never expose the required dot), a dot, two digits. -/
def amtMatchAt (cs : List Char) : Option (List Char × List Char) :=
  let run := cs.takeWhile (fun c => isPyDigit c || c = ',')
  if run = [] then none
  else
    match cs.drop run.length with
    | '.' :: d1 :: d2 :: rest =>
      if isPyDigit d1 && isPyDigit d2 then
        some (run ++ '.' :: [d1, d2], rest)
      else none
    | _ => none

/-- Fuel-driven `re.findall(r'([\d,]+\.\d{2})', s)` scan; matches are
non-overlapping and each step consumes at least one character. -/
def findAmountsGo : ℕ → List Char → List (List Char)
  | 0, _ => []
  | _ + 1, [] => []
  | fuel + 1, c :: rest =>
    match amtMatchAt (c :: rest) with
    | some (m, after) => m :: findAmountsGo fuel after
    | none => findAmountsGo fuel rest

/-- All amount-shaped matches of a line, `re.findall(r'([\d,]+\.\d{2})', s)`. -/
def findAmounts (s : List Char) : List (List Char) :=
  findAmountsGo s.length s

/-- `_is_debit_yes(description)`: debit keywords win, then credit keywords,
then the UPI `FROM:`/`TO:` heuristic, then the debit default. -/
def is_debit_yes (description : List Char) : Bool :=
  let desc := upperL description
  if containsAny desc [("WITHDRAWAL").data, ("DEBIT").data, ("PAID").data,
      ("TRANSFER TO").data, ("FUNDS TRF TO").data, ("PURCHASE").data,
      ("POS").data, ("ATM").data, ("NACH").data] then true
  else if containsAny desc [("DEPOSIT").data, ("CREDIT").data,
      ("RECEIVED").data, ("TRANSFER FROM").data, ("SALARY").data,
      ("INTEREST").data, ("REFUND").data, ("REVERSAL").data,
      ("CASHBACK").data] then false
  else if containsSub "FROM:".data desc && containsSub "TO:".data desc then
    true
  else true

/-- `_determine_ledger` of `parsers/yes_bank.py`. -/
def yesLedger (description : List Char) : List Char :=
  let desc := upperL description
  if containsAny desc [("UPI").data, ("IMPS").data, ("NEFT").data,
      ("RTGS").data] then
    if containsAny desc [("ZOMATO").data, ("SWIGGY").data] then
      ("Food & Dining").data
    else if containsAny desc [("ZERODHA").data, ("GROWW").data] then
      ("Investment").data
    else if containsAny desc [("RECHARGE").data, ("AIRTEL").data,
        ("JIO").data, ("PREPAID").data] then ("Utilities").data
    else if containsAny desc [("NETFLIX").data, ("SPOTIFY").data,
        ("APPLE").data] then ("Entertainment").data
    else if containsAny desc [("PORTER").data, ("CAB").data, ("OLA").data,
        ("UBER").data] then ("Transport").data
    else if containsAny desc [("MEDICINE").data, ("BLOOD TEST").data,
        ("HOSPITAL").data] then ("Medical").data
    else if containsSub "FAMILY".data desc then ("Family Transfer").data
    else if containsSub "CREDIT CARD".data desc then
      ("Credit Card Payment").data
    else if containsSub "JEWELLERY".data desc then ("Shopping").data
    else ("Transfer").data
  else if containsSub "SALARY".data desc then ("Salary").data
  else if containsSub "INTEREST".data desc then ("Interest").data
  else if containsSub "ATM".data desc || containsSub "CASH".data desc then
    ("Cash").data
  else if containsSub "FUNDS TRF".data desc then ("Transfer").data
  else ("General").data

/-- Skip-keyword blacklist of `_process_yes_text`. -/
def yesSkipKws : List (List Char) :=
  [("transaction date").data, ("value date").data, ("cheque no").data,
   ("customer id").data, ("primary account").data, ("nominee").data,
   ("a/c opening").data, ("account variant").data, ("joint holder").data,
   ("opening balance:").data, ("total withdrawals").data,
   ("total deposits").data, ("closing balance:").data, ("od limit").data,
   ("please review").data, ("mandatory disclaimer").data,
   ("transaction codes").data, ("reward points").data]

/-- One loop iteration of `_process_yes_text`: state is the emitted records
plus the open candidate. -/
def processYesLine
    (st : List TransactionRecord × Option TransactionRecord)
    (rawLine : List Char) :
    List TransactionRecord × Option TransactionRecord :=
  let line := stripWs rawLine
  if line = [] then st
  else
    let lower := lowerL line
    if containsAny lower yesSkipKws then st
    else
      match yesDateMatch line with
      | some md =>
        let txns := match st.2 with
          | some t => st.1 ++ [t]
          | none => st.1
        let rest0 := stripWs md.2
        let rest := match yesDateMatch rest0 with
          | some mv => stripWs mv.2
          | none => rest0
        let amounts := findAmounts rest
        let desc0 := amounts.foldl (fun d a => replaceFirstL a [] d) rest
        let desc := stripWs (collapseWs desc0)
        let fa := amounts.map (fun a => (pyFloat (removeChar ',' a)).getD 0)
        let debit : Val :=
          if fa.length ≥ 3 then
            if fa.getD (fa.length - 3) 0 > 0 then
              Val.num (fa.getD (fa.length - 3) 0)
            else Val.str []
          else if fa.length = 2 then
            if is_debit_yes desc then Val.num (fa.getD 0 0) else Val.str []
          else Val.str []
        let credit : Val :=
          if fa.length ≥ 3 then
            if fa.getD (fa.length - 2) 0 > 0 then
              Val.num (fa.getD (fa.length - 2) 0)
            else Val.str []
          else if fa.length = 2 then
            if is_debit_yes desc then Val.str [] else Val.num (fa.getD 0 0)
          else Val.str []
        let balance : Val :=
          if fa.length ≥ 1 then Val.num (fa.getD (fa.length - 1) 0)
          else Val.str []
        (txns, some { date := md.1, description := desc, debit := debit,
                      credit := credit, balance := balance,
                      ledger := yesLedger desc })
      | none =>
        match st.2 with
        | some cur =>
          let amounts := findAmounts line
          let cleaned := amounts.foldl
            (fun c a => stripWs (replaceAllL a [] c)) line
          if cleaned ≠ [] ∧ ¬ (cleaned.all fun ch =>
              isPyDigit ch || isPySpace ch || ch = ',' || ch = '.') then
            (st.1, some { cur with
              description := cur.description ++ ' ' :: cleaned })
          else (st.1, some cur)
        | none => st

/-- `_process_yes_text(text, transactions)`: fold the line step over the
page's lines and flush the open candidate at the end. -/
def process_yes_text (text : List Char)
    (transactions : List TransactionRecord) : List TransactionRecord :=
  let st := (splitLines text).foldl processYesLine (transactions, none)
  match st.2 with
  | some t => st.1 ++ [t]
  | none => st.1

/-! ## Standard Chartered table extractor (`parsers/standard_bank.py`)

`_process_table` walks pre-segmented rows of cells with four mutable column
indices (deposit 4, withdrawal 5, balance 6, description 2 by default,
overridden by a header row).  A dated row whose description contains
BALANCE FORWARD and whose validated debit and credit are empty becomes an
`Opening Balance` record when its validated balance is non-empty, and is
dropped otherwise. -/

/-- Loop state of `_process_table`: the four column indices and the record
list being extended. -/
structure StdTableState where
  col_deposit : ℕ := 4
  col_withdrawal : ℕ := 5
  col_balance : ℕ := 6
  col_desc : ℕ := 2
  transactions : List TransactionRecord := []
deriving DecidableEq

/-- Cell normalization `str(c).strip() if c else ''` over a row (`None` and
the empty string are falsy). -/
def stdCells (row : List (Option (List Char))) : List (List Char) :=
  row.map (fun c => match c with
    | some s => stripWs s
    | none => [])

/-- Header-row rescan of `_process_table`: each cell is lowered, stripped and
matched against the column keywords, updating that column's index. -/
def stdHeaderScan (st : StdTableState) (cells : List (List Char)) :
    StdTableState :=
  cells.enum.foldl (fun s p =>
    let cl := stripWs (lowerL p.2)
    if containsSub "deposit".data cl then { s with col_deposit := p.1 }
    else if containsSub "withdrawal".data cl then
      { s with col_withdrawal := p.1 }
    else if containsSub "balance".data cl then { s with col_balance := p.1 }
    else if containsSub "description".data cl then { s with col_desc := p.1 }
    else s) st

/-- Amount-cell validation of `_process_table`: in-range, non-blank, and
matching `^[\d.]+$` after comma removal; the validated value is the stripped
cell text, otherwise the empty string. -/
def stdValidAmount (cells : List (List Char)) (idx : ℕ) : List Char :=
  if idx < cells.length ∧ stripWs (cells.getD idx []) ≠ [] then
    let val := stripWs (removeChar ',' (cells.getD idx []))
    if val ≠ [] ∧ val.all (fun c => isPyDigit c || c = '.') then
      stripWs (cells.getD idx [])
    else []
  else []

/-- `transactions[-1]['description'] += ' ' + extra`. -/
def appendToLastDesc (extra : List Char) :
    List TransactionRecord → List TransactionRecord
  | [] => []
  | [t] => [{ t with description := t.description ++ ' ' :: extra }]
  | t :: rest => t :: appendToLastDesc extra rest

/-- `_determine_ledger` of `parsers/standard_bank.py`. -/
def stdLedger (description : List Char) : List Char :=
  let desc := upperL description
  if containsAny desc [("UPI").data, ("IMPS").data, ("NEFT").data,
      ("RTGS").data] then
    if containsAny desc [("SWIGGY").data, ("ZOMATO").data] then
      ("Food & Dining").data
    else ("Transfer").data
  else if containsSub "SALARY".data desc then ("Salary").data
  else if containsSub "INTEREST".data desc then ("Interest").data
  else if containsSub "BALANCE FORWARD".data desc then
    ("Opening Balance").data
  else ("General").data

/-- One row of `_process_table`. -/
def stdProcessRow (st : StdTableState) (row : List (Option (List Char))) :
    StdTableState :=
  if row = [] ∨ row.length < 3 then st
  else
    let cells := stdCells row
    let combined := lowerL (List.intercalate [' '] cells)
    if containsSub "deposit".data combined ||
        containsSub "withdrawal".data combined then
      stdHeaderScan st cells
    else if containsAny combined [("date").data, ("value").data,
        ("cheque").data, ("total").data] ∧
        (matchDayMonYear (cells.getD 0 [])).isNone then
      st
    else
      match matchDayMonYear (cells.getD 0 []) with
      | none =>
        if (if st.col_desc < cells.length then
            st.transactions ≠ [] ∧ cells.getD st.col_desc [] ≠ []
          else False) then
          let extra := stripWs (cells.getD st.col_desc [])
          if extra ≠ [] then
            { st with
              transactions := appendToLastDesc extra st.transactions }
          else st
        else st
      | some md =>
        let description := stripWs (collapseWs
          (if st.col_desc < cells.length then
            stripWs (cells.getD st.col_desc []) else []))
        let credit := stdValidAmount cells st.col_deposit
        let debit := stdValidAmount cells st.col_withdrawal
        let balance := stdValidAmount cells st.col_balance
        if containsSub "BALANCE FORWARD".data (upperL description) ∧
            debit = [] ∧ credit = [] then
          if balance ≠ [] then
            { st with transactions := st.transactions ++
                [{ date := md.1, description := description,
                   debit := Val.str [], credit := Val.str [],
                   balance := Val.str balance,
                   ledger := ("Opening Balance").data }] }
          else st
        else if description ≠ [] then
          { st with transactions := st.transactions ++
              [{ date := md.1, description := description,
                 debit := Val.str debit, credit := Val.str credit,
                 balance := Val.str balance,
                 ledger := stdLedger description }] }
        else st

/-- `_process_table(table, transactions)`: fold the row step from the default
column indices. -/
def process_table_std (table : List (List (Option (List Char))))
    (transactions : List TransactionRecord) : List TransactionRecord :=
  (table.foldl stdProcessRow { transactions := transactions }).transactions

/-- Sum of the numeric debit readings of a record list. -/
def sumDebit (l : List TransactionRecord) : ℚ :=
  (l.map (fun t => to_float t.debit)).sum

/-- Sum of the numeric credit readings of a record list. -/
def sumCredit (l : List TransactionRecord) : ℚ :=
  (l.map (fun t => to_float t.credit)).sum

/-- Balance field that is non-empty and non-zero, in the wording of the
backfill claims (spec side, not the code's test): not `None`, not the empty
string, and numerically non-zero under the `_to_float` reading. -/
def specNonEmptyNonZeroBalance (v : Val) : Prop :=
  v ≠ Val.none ∧ v ≠ Val.str [] ∧ to_float v ≠ 0

instance (v : Val) : Decidable (specNonEmptyNonZeroBalance v) := by
  unfold specNonEmptyNonZeroBalance
  infer_instance

/-- The three-record scenario list of the spec (debits 100, 0, 50 and
credits 0, 500, 0, no balances). -/
def scenarioRecords : List TransactionRecord :=
  [{ debit := Val.num 100, credit := Val.num 0, balance := Val.none },
   { debit := Val.num 0, credit := Val.num 500, balance := Val.none },
   { debit := Val.num 50, credit := Val.num 0, balance := Val.none }]

/-- One-record list whose balance is the non-empty textual zero `0.00`. -/
def textualZeroBalanceRecords : List TransactionRecord :=
  [{ debit := Val.str ("100").data, credit := Val.str [],
     balance := Val.str ("0.00").data }]

/-- A table row with a date, a BALANCE FORWARD description, and every other
cell (including the balance) empty. -/
def balanceForwardEmptyBalanceRow : List (Option (List Char)) :=
  [some ("01 Apr 2024").data, some [], some ("BALANCE FORWARD").data,
   some [], some [], some [], some []]


/-! ## Helper lemmas -/

/-- If every character surviving `dropWhile p` satisfies `p`, the whole list
does (the dropped prefix satisfies `p` by construction). -/
theorem dropWhile_all_iff {p : Char → Bool} {s : List Char} :
    (∀ c ∈ s.dropWhile p, p c = true) ↔ ∀ c ∈ s, p c = true := by
  constructor
  · intro h c hc
    have hsplit : c ∈ s.takeWhile p ++ s.dropWhile p := by
      rw [List.takeWhile_append_dropWhile]; exact hc
    rcases List.mem_append.mp hsplit with h1 | h2
    · exact List.mem_takeWhile_imp h1
    · exact h c h2
  · intro h c hc
    exact h c (List.Sublist.subset (List.dropWhile_sublist _) hc)

/-- A string strips to the empty string exactly when it is whitespace-only. -/
theorem stripWs_eq_nil_iff (s : List Char) :
    stripWs s = [] ↔ ∀ c ∈ s, isPySpace c = true := by
  unfold stripWs
  rw [List.reverse_eq_nil_iff, List.dropWhile_eq_nil_iff]
  simp only [List.mem_reverse]
  exact dropWhile_all_iff

/-- `isPrefixL` agrees with the prefix relation. -/
theorem isPrefixL_spec (n h : List Char) :
    isPrefixL n h = true ↔ n <+: h := by
  induction n generalizing h with
  | nil => simp [isPrefixL]
  | cons a as ih =>
    cases h with
    | nil => simp [isPrefixL]
    | cons b bs => simp [isPrefixL, ih, List.cons_prefix_cons]

/-- `containsSub` agrees with the infix relation (Python `in`). -/
theorem containsSub_spec (n h : List Char) :
    containsSub n h = true ↔ n <:+: h := by
  induction h with
  | nil => simp [containsSub, isPrefixL_spec]
  | cons c rest ih =>
    rw [containsSub, Bool.or_eq_true, isPrefixL_spec, ih,
      List.infix_cons_iff]

/-- The page-text accumulation loop written as a join. -/
theorem foldl_append_pages (l : List (List Char)) (acc : List Char) :
    l.foldl (fun a p => a ++ p ++ ['\n']) acc =
      acc ++ (l.map (fun p => p ++ ['\n'])).flatten := by
  induction l generalizing acc with
  | nil => simp
  | cons p rest ih =>
    rw [List.foldl_cons, ih]
    simp

/-- The joined sampled text is whitespace-only exactly when every sampled
page is whitespace-only (the inserted newlines are whitespace). -/
theorem fullTextOf_whitespace_iff (pages : List (List Char)) :
    (∀ c ∈ fullTextOf pages, isPySpace c = true) ↔
      ∀ p ∈ pages.take 3, ∀ c ∈ p, isPySpace c = true := by
  unfold fullTextOf
  rw [foldl_append_pages]
  simp only [List.nil_append, List.mem_flatten, List.mem_map]
  constructor
  · intro h p hp c hc
    exact h c ⟨p ++ ['\n'], ⟨p, hp, rfl⟩, by simp [hc]⟩
  · rintro h c ⟨piece, ⟨p, hp, rfl⟩, hc⟩
    rcases List.mem_append.mp hc with h1 | h2
    · exact h p hp c h1
    · simp only [List.mem_singleton] at h2
      subst h2
      rfl

/-- Every Tier-1 result is a key of `parser_map`. -/
theorem tier1CreditLabel_mem {tl fl l : List Char}
    (h : tier1CreditLabel tl fl = some l) : l ∈ parserMapLabels := by
  unfold tier1CreditLabel at h
  split_ifs at h <;>
    first
      | (injection h with h; subst h; decide)
      | exact Option.noConfusion h

/-- Every IFSC-table value is a key of `parser_map`. -/
theorem ifscBankFor_mem {pfx bank : List Char}
    (h : ifscBankFor pfx = some bank) : bank ∈ parserMapLabels := by
  unfold ifscBankFor at h
  split_ifs at h <;>
    first
      | (injection h with h; subst h; decide)
      | exact Option.noConfusion h

/-- Every Tier-3 result is `unknown` or a key of `parser_map`. -/
theorem tier3KeywordLabel_mem (fl : List Char) :
    tier3KeywordLabel fl = ("unknown").data ∨
      tier3KeywordLabel fl ∈ parserMapLabels := by
  unfold tier3KeywordLabel
  split_ifs <;> decide

/-- The detector returns `unknown` or a key of `parser_map`. -/
theorem detect_bank_type_mem (t fp : List Char) :
    detect_bank_type t fp = ("unknown").data ∨
      detect_bank_type t fp ∈ parserMapLabels := by
  unfold detect_bank_type
  rcases h1 : tier1CreditLabel (lowerL t) (lowerL (pyOrText fp t)) with _ | l
  · simp only [h1]
    rcases h2 : findIfscFirst (pyOrText fp t) with _ | code
    · simp only [h2]
      exact tier3KeywordLabel_mem _
    · simp only [h2]
      rcases h3 : ifscBankFor (code.take 4) with _ | bank
      · simp only [h3]
        exact tier3KeywordLabel_mem _
      · simp only [h3]
        split_ifs with h4
        · right; decide
        · right; exact ifscBankFor_mem h3
  · simp only [h1]
    right; exact tier1CreditLabel_mem h1

/-! ## Claim theorems -/

/-- C10: when `first_page_text` is empty (or `None`, which is equally falsy
in `first_page_text or text`), every first-page keyword check and the IFSC
extraction of `detect_bank_type` are evaluated against the full multi-page
text, so detection behaves exactly as if the whole sampled text were the
first page. -/
theorem detect_bank_type_first_page_fallback (text : List Char) :
    detect_bank_type text [] = detect_bank_type text text := by
  by_cases h : text = []
  · subst h; rfl
  · unfold detect_bank_type pyOrText
    simp [h]

/-- C4: whenever any Tier-1 credit-card phrase condition fires (pinning the
label `l` the Tier-1 chain selects), `detect_bank_type` returns `l` even
though the text also carries an IFSC routing code whose 4-letter prefix is in
the bank table — the routing-code tier is never consulted. -/
theorem detect_bank_type_tier1_precedence (text fp l : List Char)
    (h1 : tier1CreditLabel (lowerL text) (lowerL (pyOrText fp text)) = some l)
    (h2 : ∃ code, findIfscFirst (pyOrText fp text) = some code ∧
      (ifscBankFor (code.take 4)).isSome = true) :
    detect_bank_type text fp = l := by
  unfold detect_bank_type
  simp only [h1]

/-- Witness for C4 at a text containing both the One-credit Tier-1 phrase and
an SBI routing code. -/
theorem detect_bank_type_tier1_precedence_witness :
    detect_bank_type ("one credit card IFSC SBIN0001234").data [] =
      ("one_credit").data :=
  detect_bank_type_tier1_precedence
    (("one credit card IFSC SBIN0001234").data) [] (("one_credit").data)
    (by decide)
    ⟨("SBIN0001234").data, by decide, by decide⟩

/-- C7: `detect_and_parse` returns the no-match signal `none` (never an
exception — the embedding is a total function) in exactly three cases: the
extracted text of all sampled pages is empty (whitespace-only, the
`full_text.strip()` test), the detector answers `unknown` (the only label
without a parser), or the selected parser returns zero records.  The latter
two collapse to the same returned value `none`, so they are indistinguishable
for the caller. -/
theorem detect_and_parse_none_iff (pages : List (List Char))
    (parseResult : List Char → List TransactionRecord) :
    detect_and_parse pages parseResult = none ↔
      ((∀ p ∈ pages.take 3, ∀ c ∈ p, isPySpace c = true) ∨
        detect_bank_type (fullTextOf pages) (firstPageOf pages) =
          ("unknown").data ∨
        parseResult (detect_bank_type (fullTextOf pages)
          (firstPageOf pages)) = []) := by
  unfold detect_and_parse
  by_cases hempty : stripWs (fullTextOf pages) = []
  · simp only [hempty, if_pos rfl]
    have h1 : ∀ p ∈ pages.take 3, ∀ c ∈ p, isPySpace c = true :=
      (fullTextOf_whitespace_iff pages).mp ((stripWs_eq_nil_iff _).mp hempty)
    exact iff_of_true rfl (Or.inl h1)
  · have h1 : ¬ ∀ p ∈ pages.take 3, ∀ c ∈ p, isPySpace c = true := by
      intro hall
      exact hempty ((stripWs_eq_nil_iff _).mpr
        ((fullTextOf_whitespace_iff pages).mpr hall))
    rw [if_neg hempty]
    rcases detect_bank_type_mem (fullTextOf pages) (firstPageOf pages)
      with hunk | hmem
    · have hnot : detect_bank_type (fullTextOf pages) (firstPageOf pages)
          ∉ parserMapLabels := by
        rw [hunk]; decide
      rw [if_neg hnot]
      exact iff_of_true rfl (Or.inr (Or.inl hunk))
    · have hne : detect_bank_type (fullTextOf pages) (firstPageOf pages)
          ≠ ("unknown").data := by
        intro he
        rw [he] at hmem
        exact absurd hmem (by decide)
      rw [if_pos hmem]
      by_cases hz : parseResult (detect_bank_type (fullTextOf pages)
          (firstPageOf pages)) = []
      · simp [hz, h1, hne]
      · simp [hz, h1, hne]

/-- The accumulation loop writes, into position `i`, the original record with
its balance replaced by the rounded running total. -/
theorem fillLoop_spec (l : List TransactionRecord) (r : ℚ) (i : ℕ)
    (hi : i < l.length) :
    (fillLoop r l)[i]? = some { l.get ⟨i, hi⟩ with
      balance := Val.num (pyRound2
        (r - sumDebit (l.take (i + 1)) + sumCredit (l.take (i + 1)))) } := by
  induction l generalizing r i with
  | nil => simp at hi
  | cons t ts ih =>
    cases i with
    | zero =>
      simp [fillLoop, sumDebit, sumCredit]
    | succ n =>
      have hn : n < ts.length := by simpa using hi
      have step := ih (r - to_float t.debit + to_float t.credit) n hn
      simp only [fillLoop, List.getElem?_cons_succ, List.get]
      rw [step]
      have harg :
          r - to_float t.debit + to_float t.credit -
              sumDebit (ts.take (n + 1)) + sumCredit (ts.take (n + 1)) =
            r - sumDebit ((t :: ts).take (n + 1 + 1)) +
              sumCredit ((t :: ts).take (n + 1 + 1)) := by
        simp [sumDebit, sumCredit, List.take]
        ring
      rw [harg]

/-- A non-empty, numerically non-zero balance passes the code's literal
`not in (None, '', '0', 0)` test. -/
theorem spec_balance_hasBalanceVal {v : Val}
    (h : specNonEmptyNonZeroBalance v) : hasBalanceVal v = true := by
  obtain ⟨h1, h2, h3⟩ := h
  cases v with
  | none => exact absurd rfl h1
  | num q =>
    have hq : q ≠ 0 := fun h0 => h3 (by simp [to_float, h0])
    simp [hasBalanceVal, hq]
  | str s =>
    have hs1 : s ≠ [] := fun h0 => h2 (by rw [h0])
    have hs2 : s ≠ ['0'] := by
      intro h0
      subst h0
      exact h3 (by decide)
    simp [hasBalanceVal, hs1, hs2]

/-- C1 (amended): when every record's balance fails the code's
`not in (None, '', '0', 0)` test, `_fill_running_balance` rewrites record `i`
to carry exactly `round(sum(credit[0..i]) - sum(debit[0..i]), 2)`, all other
fields unchanged; missing, empty or unparseable debit/credit values read as
zero through `_to_float`. -/
theorem fill_running_balance_backfill (txns : List TransactionRecord)
    (h : ∀ t ∈ txns, hasBalanceVal t.balance = false) (i : ℕ)
    (hi : i < txns.length) :
    (fill_running_balance txns)[i]? = some { txns.get ⟨i, hi⟩ with
      balance := Val.num (pyRound2
        (sumCredit (txns.take (i + 1)) - sumDebit (txns.take (i + 1)))) } := by
  have hany : txns.any (fun txn => hasBalanceVal txn.balance) = false := by
    simp only [List.any_eq_false]
    intro t ht
    simp [h t ht]
  unfold fill_running_balance
  rw [hany]
  simp only [Bool.false_eq_true, if_false]
  rw [fillLoop_spec txns 0 i hi]
  have harg : (0 : ℚ) - sumDebit (txns.take (i + 1)) +
      sumCredit (txns.take (i + 1)) =
      sumCredit (txns.take (i + 1)) - sumDebit (txns.take (i + 1)) := by
    ring
  rw [harg]

/-- Witness for C1 on the spec's three-record scenario: the third backfilled
balance is `350` (the full sequence being `-100`, `400`, `350`). -/
theorem fill_running_balance_backfill_witness :
    ((fill_running_balance scenarioRecords)[2]?).map
      TransactionRecord.balance = some (Val.num 350) := by
  rw [fill_running_balance_backfill scenarioRecords (by decide) 2 (by decide)]
  have hsum : sumCredit (scenarioRecords.take (2 + 1)) -
      sumDebit (scenarioRecords.take (2 + 1)) = (350 : ℚ) := by
    simp [scenarioRecords, sumCredit, sumDebit, to_float]
    norm_num
  simp only [Option.map_some', hsum]
  decide

/-- C1 counterexample against the claim as stated: the single record's
balance `0.00` is non-empty but numerically zero, so the list carries no
non-empty, non-zero balance; the claim then demands the backfilled balance
`round(0 - 100, 2) = -100` at position 0, but `_fill_running_balance`
(whose test is `not in (None, '', '0', 0)`) treats the string `0.00` as a
present balance and leaves the record untouched. -/
theorem fill_running_balance_backfill_cex :
    (∀ t ∈ textualZeroBalanceRecords,
      ¬ specNonEmptyNonZeroBalance t.balance) ∧
    ¬ (((fill_running_balance textualZeroBalanceRecords)[0]?).map
        TransactionRecord.balance =
      some (Val.num (pyRound2
        (sumCredit (textualZeroBalanceRecords.take 1) -
          sumDebit (textualZeroBalanceRecords.take 1))))) := by
  constructor
  · decide
  · intro h
    rw [show fill_running_balance textualZeroBalanceRecords =
        textualZeroBalanceRecords from by decide] at h
    simp [textualZeroBalanceRecords] at h

/-- C5: when some record carries a non-empty, non-zero balance,
`_fill_running_balance` returns the list unchanged — no partial backfill of
the records that lack a balance. -/
theorem fill_running_balance_noop (txns : List TransactionRecord)
    (h : ∃ t ∈ txns, specNonEmptyNonZeroBalance t.balance) :
    fill_running_balance txns = txns := by
  obtain ⟨t, ht, hs⟩ := h
  have hany : txns.any (fun txn => hasBalanceVal txn.balance) = true :=
    List.any_eq_true.mpr ⟨t, ht, spec_balance_hasBalanceVal hs⟩
  simp [fill_running_balance, hany]

/-- Witness for C5: a two-record list whose second record has balance
`500.00`; the first record lacks a balance but is still left untouched. -/
theorem fill_running_balance_noop_witness :
    fill_running_balance
      [{ debit := Val.str ("100").data, balance := Val.str [] },
       { credit := Val.str ("50").data,
         balance := Val.str ("500.00").data }] =
      [{ debit := Val.str ("100").data, balance := Val.str [] },
       { credit := Val.str ("50").data,
         balance := Val.str ("500.00").data }] :=
  fill_running_balance_noop _
    ⟨{ credit := Val.str ("50").data, balance := Val.str ("500.00").data },
      by decide, by decide⟩

/-- C6: column classification by right edge.  For `_classify_col`
(`sbi_bank.py`, arbitrary profile coordinates) the result is the column whose
expected right edge is nearest to the token's right edge, accepted only
within the 15-pixel tolerance, with exact ties resolved toward the
earlier-declared profile column (debit before credit before balance, the
first-on-tie behaviour of Python `min`); outside every tolerance the token is
assigned to no column.  For the fixed-constant classifier of
`parse_hdfc_bank` (strict 20-pixel tolerance), an accepted token's column is
strictly nearest among the three columns — the disjoint constants make a
within-tolerance tie impossible — and a token outside every tolerance is
assigned to no column. -/
theorem classify_col_nearest_within_tolerance :
    (∀ x1 dX cX bX : ℚ,
      (classify_col x1 dX cX bX = some AmtCol.debit ↔
        |x1 - dX| ≤ 15 ∧ |x1 - dX| ≤ |x1 - cX| ∧ |x1 - dX| ≤ |x1 - bX|) ∧
      (classify_col x1 dX cX bX = some AmtCol.credit ↔
        |x1 - cX| ≤ 15 ∧ |x1 - cX| < |x1 - dX| ∧ |x1 - cX| ≤ |x1 - bX|) ∧
      (classify_col x1 dX cX bX = some AmtCol.balance ↔
        |x1 - bX| ≤ 15 ∧ |x1 - bX| < |x1 - dX| ∧ |x1 - bX| < |x1 - cX|) ∧
      (classify_col x1 dX cX bX = none ↔
        ¬ (|x1 - dX| ≤ 15 ∨ |x1 - cX| ≤ 15 ∨ |x1 - bX| ≤ 15))) ∧
    (∀ x1 : ℚ,
      (∀ c : AmtCol, hdfcClassifyAmount x1 = some c ↔
        |x1 - hdfcColX1 c| < 20 ∧
          ∀ c2 : AmtCol, c2 ≠ c →
            |x1 - hdfcColX1 c| < |x1 - hdfcColX1 c2|) ∧
      (hdfcClassifyAmount x1 = none ↔
        ∀ c : AmtCol, 20 ≤ |x1 - hdfcColX1 c|)) := by
  constructor
  · intro x1 dX cX bX
    simp only [classify_col, pyMinBySnd]
    by_cases h1 : |x1 - cX| < |x1 - dX|
    · simp only [if_pos h1]
      by_cases h2 : |x1 - bX| < |x1 - cX|
      · simp only [if_pos h2]
        by_cases h3 : |x1 - bX| ≤ 15
        · simp only [if_pos h3]
          refine ⟨?_, ?_, ?_, ?_⟩ <;> simp <;> first
            | (intro h; constructor <;> intro <;> linarith)
            | (refine ⟨h3, by linarith, by linarith⟩)
            | (intro h4 h5; linarith)
            | (intro h4; exact ⟨by linarith⟩)
        · simp only [if_neg h3]
          refine ⟨?_, ?_, ?_, ?_⟩ <;> simp <;> try (intro h4 h5; linarith)
          · exact ⟨by linarith, by linarith, by linarith⟩
      · simp only [if_neg h2]
        by_cases h3 : |x1 - cX| ≤ 15
        · simp only [if_pos h3]
          refine ⟨?_, ?_, ?_, ?_⟩ <;> simp <;> first
            | (intro h4 h5; linarith)
            | (refine ⟨h3, h1, by linarith⟩)
            | (intro h4; linarith)
        · simp only [if_neg h3]
          refine ⟨?_, ?_, ?_, ?_⟩ <;> simp <;> try (intro h4 h5; linarith)
          · exact ⟨by linarith, by linarith, by linarith⟩
    · simp only [if_neg h1]
      by_cases h2 : |x1 - bX| < |x1 - dX|
      · simp only [if_pos h2]
        by_cases h3 : |x1 - bX| ≤ 15
        · simp only [if_pos h3]
          refine ⟨?_, ?_, ?_, ?_⟩ <;> simp <;> first
            | (intro h4 h5; linarith)
            | (refine ⟨h3, h2, by linarith⟩)
            | (intro h4; linarith)
        · simp only [if_neg h3]
          refine ⟨?_, ?_, ?_, ?_⟩ <;> simp <;> try (intro h4 h5; linarith)
          · exact ⟨by linarith, by linarith, by linarith⟩
      · simp only [if_neg h2]
        by_cases h3 : |x1 - dX| ≤ 15
        · simp only [if_pos h3]
          refine ⟨?_, ?_, ?_, ?_⟩ <;> simp <;> first
            | (refine ⟨h3, by linarith, by linarith⟩)
            | (intro h4 h5; linarith)
            | (intro h4; linarith)
        · simp only [if_neg h3]
          refine ⟨?_, ?_, ?_, ?_⟩ <;> simp <;> try (intro h4 h5; linarith)
          · exact ⟨by linarith, by linarith, by linarith⟩
  · intro x1
    constructor
    · intro c
      cases c with
      | balance =>
        unfold hdfcClassifyAmount
        by_cases hb : |x1 - 627| < 20
        · simp only [if_pos hb]
          have hb2 := abs_lt.mp hb
          refine iff_of_true trivial ⟨hb, ?_⟩
          intro c2 hc2
          cases c2 with
          | balance => exact absurd rfl hc2
          | credit =>
            have := le_abs_self (x1 - 548)
            simp only [hdfcColX1]
            linarith
          | debit =>
            have := le_abs_self (x1 - 470)
            simp only [hdfcColX1]
            linarith
        · simp only [if_neg hb]
          refine iff_of_false ?_ ?_
          · split_ifs <;> simp
          · intro h
            exact hb h.1
      | credit =>
        unfold hdfcClassifyAmount
        by_cases hb : |x1 - 627| < 20
        · simp only [if_pos hb]
          have hb2 := abs_lt.mp hb
          refine iff_of_false (by simp) ?_
          intro h
          have hc2 := abs_lt.mp h.1
          simp only [hdfcColX1] at hc2
          linarith
        · simp only [if_neg hb]
          by_cases hc : |x1 - 548| < 20
          · simp only [if_pos hc]
            have hc2 := abs_lt.mp hc
            refine iff_of_true trivial ⟨hc, ?_⟩
            intro c2 hcc
            cases c2 with
            | credit => exact absurd rfl hcc
            | balance =>
              have := neg_abs_le (x1 - 627)
              simp only [hdfcColX1]
              linarith
            | debit =>
              have := le_abs_self (x1 - 470)
              simp only [hdfcColX1]
              linarith
          · simp only [if_neg hc]
            refine iff_of_false ?_ ?_
            · split_ifs <;> simp
            · intro h
              exact hc h.1
      | debit =>
        unfold hdfcClassifyAmount
        by_cases hb : |x1 - 627| < 20
        · simp only [if_pos hb]
          have hb2 := abs_lt.mp hb
          refine iff_of_false (by simp) ?_
          intro h
          have hd2 := abs_lt.mp h.1
          simp only [hdfcColX1] at hd2
          linarith
        · simp only [if_neg hb]
          by_cases hc : |x1 - 548| < 20
          · simp only [if_pos hc]
            have hc2 := abs_lt.mp hc
            refine iff_of_false (by simp) ?_
            intro h
            have hd2 := abs_lt.mp h.1
            simp only [hdfcColX1] at hd2
            linarith
          · simp only [if_neg hc]
            by_cases hd : |x1 - 470| < 20
            · simp only [if_pos hd]
              have hd2 := abs_lt.mp hd
              refine iff_of_true trivial ⟨hd, ?_⟩
              intro c2 hcc
              cases c2 with
              | debit => exact absurd rfl hcc
              | balance =>
                have := neg_abs_le (x1 - 627)
                simp only [hdfcColX1]
                linarith
              | credit =>
                have := neg_abs_le (x1 - 548)
                simp only [hdfcColX1]
                linarith
            · simp only [if_neg hd]
              refine iff_of_false (by simp) ?_
              intro h
              exact hd h.1
    · unfold hdfcClassifyAmount
      split_ifs with hb hc hd
      · refine iff_of_false (by simp) ?_
        intro h
        exact absurd hb (not_lt.mpr (by simpa [hdfcColX1] using h AmtCol.balance))
      · refine iff_of_false (by simp) ?_
        intro h
        exact absurd hc (not_lt.mpr (by simpa [hdfcColX1] using h AmtCol.credit))
      · refine iff_of_false (by simp) ?_
        intro h
        exact absurd hd (not_lt.mpr (by simpa [hdfcColX1] using h AmtCol.debit))
      · refine iff_of_true rfl ?_
        intro c
        cases c with
        | debit => simpa [hdfcColX1] using not_lt.mp hd
        | credit => simpa [hdfcColX1] using not_lt.mp hc
        | balance => simpa [hdfcColX1] using not_lt.mp hb

/-- A list never equals itself with one more element appended. -/
theorem append_singleton_ne_self {α : Type} (l : List α) (r : α) :
    l ++ [r] ≠ l := by
  intro h
  have := congrArg List.length h
  simp at this

/-- C3 (amended): in the line-based credit-card finalizers, a candidate is
finalized into exactly one appended record iff — for `sbi_credit` — its
amount and date are non-empty and the amount parses to a non-zero number
(the cleaned description may be empty), and — for `hdfc_credit` — its
amount is non-zero and its cleaned description non-empty; every other
candidate leaves the record list unchanged, raising no error.  A candidate
row (01/04/2024, REVERSAL, 0.00) yields no record. -/
theorem assembler_finalize_characterization :
    (∀ txn txns,
      ((∃ r, finalize_sbi_credit_txn txn txns = txns ++ [r]) ↔
        (txn.amount ≠ [] ∧ txn.date ≠ [] ∧
          ∃ q, pyFloat (removeChar ',' txn.amount) = some q ∧ q ≠ 0)) ∧
      (finalize_sbi_credit_txn txn txns = txns ∨
        ∃ r, finalize_sbi_credit_txn txn txns = txns ++ [r])) ∧
    (∀ txn txns,
      ((∃ r, finalize_hdfc_credit_txn txn txns = txns ++ [r]) ↔
        (txn.amount ≠ 0 ∧ cleanHdfcCreditDesc txn.description ≠ [])) ∧
      (finalize_hdfc_credit_txn txn txns = txns ∨
        ∃ r, finalize_hdfc_credit_txn txn txns = txns ++ [r])) ∧
    finalize_sbi_credit_txn
      { date := ("01/04/2024").data, description := ("REVERSAL").data,
        amount := ("0.00").data, dr_cr := [] } [] = [] := by
  refine ⟨?_, ?_, by decide⟩
  · intro txn txns
    unfold finalize_sbi_credit_txn
    by_cases ha : txn.amount = [] ∨ txn.date = []
    · rw [if_pos ha]
      constructor
      · constructor
        · rintro ⟨r, hr⟩
          exact absurd hr.symm (append_singleton_ne_self txns r)
        · rintro ⟨h1, h2, _⟩
          rcases ha with h | h
          · exact absurd h h1
          · exact absurd h h2
      · exact Or.inl rfl
    · rw [if_neg ha]
      push_neg at ha
      rcases hp : pyFloat (removeChar ',' txn.amount) with _ | q
      · simp only []
        constructor
        · constructor
          · rintro ⟨r, hr⟩
            exact absurd hr.symm (append_singleton_ne_self txns r)
          · rintro ⟨_, _, q, hq, _⟩
            exact Option.noConfusion hq
        · exact Or.inl (by simp)
      · simp only []
        by_cases hz : q = 0
        · rw [if_pos hz]
          constructor
          · constructor
            · rintro ⟨r, hr⟩
              exact absurd hr.symm (append_singleton_ne_self txns r)
            · rintro ⟨_, _, q2, hq2, hq2nz⟩
              injection hq2 with hq2e
              exact absurd (hq2e ▸ hz) hq2nz
          · exact Or.inl rfl
        · rw [if_neg hz]
          constructor
          · constructor
            · intro _
              exact ⟨ha.1, ha.2, q, rfl, hz⟩
            · intro _
              exact ⟨_, rfl⟩
          · exact Or.inr ⟨_, rfl⟩
  · intro txn txns
    unfold finalize_hdfc_credit_txn
    by_cases hz : txn.amount = 0
    · rw [if_pos hz]
      constructor
      · constructor
        · rintro ⟨r, hr⟩
          exact absurd hr.symm (append_singleton_ne_self txns r)
        · rintro ⟨h1, _⟩
          exact absurd hz h1
      · exact Or.inl rfl
    · rw [if_neg hz]
      by_cases hd : cleanHdfcCreditDesc txn.description = []
      · rw [if_pos hd]
        constructor
        · constructor
          · rintro ⟨r, hr⟩
            exact absurd hr.symm (append_singleton_ne_self txns r)
          · rintro ⟨_, h2⟩
            exact absurd hd h2
        · exact Or.inl rfl
      · rw [if_neg hd]
        constructor
        · constructor
          · intro _
            exact ⟨hz, hd⟩
          · intro _
            exact ⟨_, rfl⟩
        · exact Or.inr ⟨_, rfl⟩

/-- C3 counterexample against the claim as stated: a candidate with a
non-zero amount and an empty description is finalized into a record by
`_finalize_sbi_credit_txn` (which never tests the cleaned description), so
"finalized only if its cleaned description is non-empty" fails. -/
theorem assembler_finalize_cex :
    finalize_sbi_credit_txn
      { date := ("01/04/2024").data, description := [],
        amount := ("5.00").data, dr_cr := [] } [] =
      [{ date := ("01/04/2024").data, description := [],
         debit := Val.num 5, credit := Val.str [], balance := Val.str [],
         ledger := ("General").data }] := by
  decide

/-- C8: in the line-based credit-card finalizers, a polarity-override keyword
(PAYMENT RECEIVED, REFUND, REVERSAL) in the finalized candidate's cleaned
description forces the emitted record to the credit side — credit set to the
parsed amount, debit empty — regardless of the previously inferred polarity
(`dr_cr` suffix for `sbi_credit`, `is_credit` flag for `hdfc_credit`);
candidates the finalizer drops emit nothing. -/
theorem polarity_keyword_override :
    (∀ (txn : SbiCreditTxn) txns,
      (containsSub ("PAYMENT RECEIVED").data
          (upperL (cleanSbiCreditDesc txn.description)) = true ∨
        containsSub ("REVERSAL").data
          (upperL (cleanSbiCreditDesc txn.description)) = true ∨
        containsSub ("REFUND").data
          (upperL (cleanSbiCreditDesc txn.description)) = true) →
      (finalize_sbi_credit_txn txn txns = txns ∨
        ∃ q, pyFloat (removeChar ',' txn.amount) = some q ∧
          ∃ r, finalize_sbi_credit_txn txn txns = txns ++ [r] ∧
            r.debit = Val.str [] ∧ r.credit = Val.num q)) ∧
    (∀ (txn : HdfcCreditTxn) txns,
      (containsSub ("PAYMENT RECEIVED").data
          (upperL (cleanHdfcCreditDesc txn.description)) = true ∨
        containsSub ("REVERSAL").data
          (upperL (cleanHdfcCreditDesc txn.description)) = true ∨
        containsSub ("REFUND").data
          (upperL (cleanHdfcCreditDesc txn.description)) = true) →
      (finalize_hdfc_credit_txn txn txns = txns ∨
        ∃ r, finalize_hdfc_credit_txn txn txns = txns ++ [r] ∧
          r.debit = Val.str [] ∧ r.credit = Val.num txn.amount)) := by
  constructor
  · intro txn txns hkw
    unfold finalize_sbi_credit_txn
    by_cases ha : txn.amount = [] ∨ txn.date = []
    · rw [if_pos ha]
      exact Or.inl rfl
    · rw [if_neg ha]
      rcases hp : pyFloat (removeChar ',' txn.amount) with _ | q
      · exact Or.inl (by simp)
      · simp only []
        by_cases hz : q = 0
        · rw [if_pos hz]
          exact Or.inl rfl
        · rw [if_neg hz]
          have hC : txn.dr_cr = ("CR").data ∨ txn.dr_cr = ("C").data ∨
              containsSub ("PAYMENT RECEIVED").data
                (upperL (cleanSbiCreditDesc txn.description)) = true ∨
              containsSub ("REVERSAL").data
                (upperL (cleanSbiCreditDesc txn.description)) = true ∨
              containsSub ("REFUND").data
                (upperL (cleanSbiCreditDesc txn.description)) = true :=
            Or.inr (Or.inr hkw)
          refine Or.inr ⟨q, rfl, ⟨_, rfl, ?_, ?_⟩⟩ <;>
            simp only [if_pos hC]
  · intro txn txns hkw
    unfold finalize_hdfc_credit_txn
    by_cases hz : txn.amount = 0
    · rw [if_pos hz]
      exact Or.inl rfl
    · rw [if_neg hz]
      by_cases hd : cleanHdfcCreditDesc txn.description = []
      · rw [if_pos hd]
        exact Or.inl rfl
      · rw [if_neg hd]
        by_cases hpr : containsSub ("PAYMENT").data
            (upperL (cleanHdfcCreditDesc txn.description)) = true ∧
            containsSub ("RECEIVED").data
              (upperL (cleanHdfcCreditDesc txn.description)) = true
        · refine Or.inr ⟨_, rfl, ?_, ?_⟩ <;> simp [if_pos hpr]
        · have hsrf : containsSub ("SURCHARGE WAIVER").data
              (upperL (cleanHdfcCreditDesc txn.description)) = true ∨
              containsSub ("REVERSAL").data
                (upperL (cleanHdfcCreditDesc txn.description)) = true ∨
              containsSub ("REFUND").data
                (upperL (cleanHdfcCreditDesc txn.description)) = true := by
            rcases hkw with hkw | hkw | hkw
            · have h2 := (containsSub_spec _ _).mp hkw
              refine absurd ⟨?_, ?_⟩ hpr
              · exact (containsSub_spec _ _).mpr
                  ((show ("PAYMENT").data <:+: ("PAYMENT RECEIVED").data by
                    decide).trans h2)
              · exact (containsSub_spec _ _).mpr
                  ((show ("RECEIVED").data <:+: ("PAYMENT RECEIVED").data by
                    decide).trans h2)
            · exact Or.inr (Or.inl hkw)
            · exact Or.inr (Or.inr hkw)
          refine Or.inr ⟨_, rfl, ?_, ?_⟩ <;> simp [if_neg hpr, if_pos hsrf]

/-- Witness for C8: a candidate whose suffix `DR` marks it a debit but whose
description says REVERSAL is emitted as a credit of its amount `50.00`. -/
theorem polarity_keyword_override_witness :
    (containsSub ("REVERSAL").data
        (upperL (cleanSbiCreditDesc ("REVERSAL").data)) = true) ∧
    (finalize_sbi_credit_txn
        { date := ("01/04/2024").data, description := ("REVERSAL").data,
          amount := ("50.00").data, dr_cr := ("DR").data } [] = [] ∨
      ∃ q, pyFloat (removeChar ',' ("50.00").data) = some q ∧
        ∃ r, finalize_sbi_credit_txn
            { date := ("01/04/2024").data, description := ("REVERSAL").data,
              amount := ("50.00").data, dr_cr := ("DR").data } [] =
            [] ++ [r] ∧
          r.debit = Val.str [] ∧ r.credit = Val.num q) ∧
    (finalize_sbi_credit_txn
        { date := ("01/04/2024").data, description := ("REVERSAL").data,
          amount := ("50.00").data, dr_cr := ("DR").data } []).map
      (fun r => r.credit) = [Val.num 50] :=
  ⟨by decide,
   polarity_keyword_override.1
     { date := ("01/04/2024").data, description := ("REVERSAL").data,
       amount := ("50.00").data, dr_cr := ("DR").data } []
     (Or.inr (Or.inl (by decide))),
   by decide⟩

/-- C2 counterexample against the claim as stated: on a Yes Bank text-mode
line carrying three amounts with positive withdrawal and deposit slots,
`_process_yes_text` emits a single record whose debit and credit are both
non-empty (and which is not the synthetic Opening Balance record). -/
theorem record_exclusivity_cex :
    ∃ r ∈ process_yes_text
        ("01/04/2024 FOO 100.00 200.00 300.00").data [],
      r.debit = Val.num 100 ∧ r.credit = Val.num 200 ∧
        r.debit ≠ Val.str [] ∧ r.debit ≠ Val.none ∧
        r.credit ≠ Val.str [] ∧ r.credit ≠ Val.none := by
  decide

/-- C2 (amended): the credit-card finalizers (`sbi_credit`, `hdfc_credit`)
emit only records with at most one of debit/credit non-empty — each record
they append carries the empty string on at least one of the two sides.  (The
Yes Bank text-mode extractor does not enforce the invariant; see the
counterexample.) -/
theorem record_exclusivity_credit_finalizers :
    (∀ (txn : SbiCreditTxn) txns (r : TransactionRecord),
      r ∈ finalize_sbi_credit_txn txn txns →
      r ∈ txns ∨ r.debit = Val.str [] ∨ r.credit = Val.str []) ∧
    (∀ (txn : HdfcCreditTxn) txns (r : TransactionRecord),
      r ∈ finalize_hdfc_credit_txn txn txns →
      r ∈ txns ∨ r.debit = Val.str [] ∨ r.credit = Val.str []) := by
  constructor
  · intro txn txns r hr
    unfold finalize_sbi_credit_txn at hr
    by_cases ha : txn.amount = [] ∨ txn.date = []
    · rw [if_pos ha] at hr
      exact Or.inl hr
    · rw [if_neg ha] at hr
      rcases hp : pyFloat (removeChar ',' txn.amount) with _ | q
      · simp only [hp] at hr
        exact Or.inl hr
      · simp only [hp] at hr
        by_cases hz : q = 0
        · rw [if_pos hz] at hr
          exact Or.inl hr
        · rw [if_neg hz] at hr
          rcases List.mem_append.mp hr with h | h
          · exact Or.inl h
          · simp only [List.mem_singleton] at h
            subst h
            by_cases hC : txn.dr_cr = ("CR").data ∨
                txn.dr_cr = ("C").data ∨
                containsSub ("PAYMENT RECEIVED").data
                  (upperL (cleanSbiCreditDesc txn.description)) = true ∨
                containsSub ("REVERSAL").data
                  (upperL (cleanSbiCreditDesc txn.description)) = true ∨
                containsSub ("REFUND").data
                  (upperL (cleanSbiCreditDesc txn.description)) = true
            · exact Or.inr (Or.inl (by simp [if_pos hC]))
            · exact Or.inr (Or.inr (by simp [if_neg hC]))
  · intro txn txns r hr
    unfold finalize_hdfc_credit_txn at hr
    by_cases hz : txn.amount = 0
    · rw [if_pos hz] at hr
      exact Or.inl hr
    · rw [if_neg hz] at hr
      by_cases hd : cleanHdfcCreditDesc txn.description = []
      · rw [if_pos hd] at hr
        exact Or.inl hr
      · rw [if_neg hd] at hr
        rcases List.mem_append.mp hr with h | h
        · exact Or.inl h
        · simp only [List.mem_singleton] at h
          subst h
          by_cases hpr : containsSub ("PAYMENT").data
              (upperL (cleanHdfcCreditDesc txn.description)) = true ∧
              containsSub ("RECEIVED").data
                (upperL (cleanHdfcCreditDesc txn.description)) = true
          · exact Or.inr (Or.inl (by simp [if_pos hpr]))
          · by_cases hsrf : containsSub ("SURCHARGE WAIVER").data
                (upperL (cleanHdfcCreditDesc txn.description)) = true ∨
                containsSub ("REVERSAL").data
                  (upperL (cleanHdfcCreditDesc txn.description)) = true ∨
                containsSub ("REFUND").data
                  (upperL (cleanHdfcCreditDesc txn.description)) = true
            · exact Or.inr (Or.inl (by simp [if_neg hpr, if_pos hsrf]))
            · cases hic : txn.is_credit
              · exact Or.inr (Or.inr
                  (by simp [if_neg hpr, if_neg hsrf, hic]))
              · exact Or.inr (Or.inl
                  (by simp [if_neg hpr, if_neg hsrf, hic]))

/-- Witness for C2's amended theorem: a plain purchase candidate is emitted
with an empty credit side. -/
theorem record_exclusivity_credit_finalizers_witness :
    ({ date := ("01/04/2024").data, description := ("SHOP").data,
       debit := Val.num 10, credit := Val.str [], balance := Val.str [],
       ledger := ("General").data : TransactionRecord } ∈
      finalize_sbi_credit_txn
        { date := ("01/04/2024").data, description := ("SHOP").data,
          amount := ("10.00").data, dr_cr := [] } []) ∧
    ({ date := ("01/04/2024").data, description := ("SHOP").data,
       debit := Val.num 10, credit := Val.str [], balance := Val.str [],
       ledger := ("General").data : TransactionRecord } ∈
        ([] : List TransactionRecord) ∨
      Val.num 10 = Val.str [] ∨ Val.str [] = Val.str []) :=
  ⟨by decide,
   record_exclusivity_credit_finalizers.1
     { date := ("01/04/2024").data, description := ("SHOP").data,
       amount := ("10.00").data, dr_cr := [] } []
     { date := ("01/04/2024").data, description := ("SHOP").data,
       debit := Val.num 10, credit := Val.str [], balance := Val.str [],
       ledger := ("General").data }
     (by decide)⟩

/-- C9 (amended): in the table-cell extractor, a dated row whose description
contains BALANCE FORWARD, whose validated debit and credit are empty (in
particular when those cells are empty), and whose balance cell passes the
numeric validation is preserved as a record tagged with the reserved Opening
Balance ledger category, with empty debit and credit and the row's validated
balance value.  (A balance-forward row whose balance cell is empty or
non-numeric is silently dropped instead; see the counterexample.) -/
theorem std_balance_forward_preserved (st : StdTableState)
    (row : List (Option (List Char))) (md : List Char × List Char)
    (h1 : ¬ (row = [] ∨ row.length < 3))
    (h2 : containsSub ("deposit").data
      (lowerL (List.intercalate [' '] (stdCells row))) = false)
    (h3 : containsSub ("withdrawal").data
      (lowerL (List.intercalate [' '] (stdCells row))) = false)
    (h4 : matchDayMonYear ((stdCells row).getD 0 []) = some md)
    (h5 : containsSub ("BALANCE FORWARD").data
      (upperL (stripWs (collapseWs
        (if st.col_desc < (stdCells row).length then
          stripWs ((stdCells row).getD st.col_desc []) else [])))) = true)
    (h6 : stdValidAmount (stdCells row) st.col_withdrawal = [])
    (h7 : stdValidAmount (stdCells row) st.col_deposit = [])
    (h8 : stdValidAmount (stdCells row) st.col_balance ≠ []) :
    stdProcessRow st row = { st with transactions := st.transactions ++
      [{ date := md.1,
         description := stripWs (collapseWs
           (if st.col_desc < (stdCells row).length then
             stripWs ((stdCells row).getD st.col_desc []) else [])),
         debit := Val.str [], credit := Val.str [],
         balance := Val.str (stdValidAmount (stdCells row) st.col_balance),
         ledger := ("Opening Balance").data }] } := by
  unfold stdProcessRow
  rw [if_neg h1]
  simp only []
  rw [if_neg (by simp [h2, h3])]
  rw [if_neg (fun hand => by
    have hnone := hand.2
    rw [h4] at hnone
    simp at hnone)]
  simp only [h4]
  have hbf : containsSub ("BALANCE FORWARD").data
      (upperL (stripWs (collapseWs
        (if st.col_desc < (stdCells row).length then
          stripWs ((stdCells row).getD st.col_desc []) else [])))) = true ∧
      stdValidAmount (stdCells row) st.col_withdrawal = [] ∧
      stdValidAmount (stdCells row) st.col_deposit = [] :=
    ⟨h5, h6, h7⟩
  rw [if_pos hbf, if_pos h8]

/-- Witness for C9: a dated BALANCE FORWARD row with empty amount cells and
balance `1,000.00` becomes an Opening Balance record under the default
column indices. -/
theorem std_balance_forward_preserved_witness :
    stdProcessRow { }
      [some ("01 Apr 2024").data, some [], some ("BALANCE FORWARD").data,
       some [], some [], some [], some ("1,000.00").data] =
      { transactions :=
        [{ date := ("01 Apr 2024").data,
           description := ("BALANCE FORWARD").data,
           debit := Val.str [], credit := Val.str [],
           balance := Val.str ("1,000.00").data,
           ledger := ("Opening Balance").data }] } := by
  rw [std_balance_forward_preserved { }
    [some ("01 Apr 2024").data, some [], some ("BALANCE FORWARD").data,
     some [], some [], some [], some ("1,000.00").data]
    (("01 Apr 2024").data, [])
    (by decide) (by decide) (by decide) (by decide) (by decide)
    (by decide) (by decide) (by decide)]
  decide

/-- C9 counterexample against the claim as stated: a dated row whose
description contains BALANCE FORWARD and whose debit and credit cells are
empty, but whose balance cell is also empty, is discarded by
`_process_table` — no record is appended. -/
theorem std_balance_forward_cex :
    ((stdCells balanceForwardEmptyBalanceRow).getD 4 [] = [] ∧
      (stdCells balanceForwardEmptyBalanceRow).getD 5 [] = [] ∧
      (matchDayMonYear
        ((stdCells balanceForwardEmptyBalanceRow).getD 0 [])).isSome = true ∧
      containsSub ("BALANCE FORWARD").data
        (upperL ((stdCells balanceForwardEmptyBalanceRow).getD 2 [])) =
        true) ∧
    stdProcessRow { } balanceForwardEmptyBalanceRow = { } := by
  decide
